import Mathlib

/-!
Verification of the cluster lifecycle orchestrator in
`src/lib/orchpy/orchpy/services.py`: address formatting, port counters,
the bootstrap sequencer (`start_cluster`, `start_node`), the process and
driver registries, and the shutdown coordinator (`cleanup`).

Python strings are modelled as lists of characters and Python integers as
`Int`.  Module-level mutable globals (the three port counters, the process
registry `all_processes`, the driver registry `drivers`) are gathered in an
explicit `World` state that every operation threads through.  Calls to the
external `orchpy.connect` / `orchpy.disconnect` API are recorded as events
in that state; exceptions are modelled with `Except`.
-/

/-- Python strings are modelled as lists of characters. -/
abbrev Str := List Char

/-! ## Decimal rendering of integers (Python `str(port)`) -/

/-- The decimal digit character for a value `0 ≤ d ≤ 9` (values above nine
do not arise: every call site passes `n % 10` or an `n < 10`). -/
def digitChar : Nat → Char
  | 0 => '0' | 1 => '1' | 2 => '2' | 3 => '3' | 4 => '4'
  | 5 => '5' | 6 => '6' | 7 => '7' | 8 => '8' | _ => '9'

/-- Decimal digit string of `n`, most significant digit first, by
structural recursion on a fuel bound (so that concrete addresses evaluate
by kernel reduction); any `fuel > n` gives the full digit string. -/
def natDigitsAux (fuel n : Nat) : List Char :=
  match fuel with
  | 0 => []
  | fuel + 1 =>
    if n < 10 then [digitChar n]
    else natDigitsAux fuel (n / 10) ++ [digitChar (n % 10)]

/-- The decimal digit string of a natural number, most significant digit
first, exactly the digits Python prints for a nonnegative integer. -/
def natDigits (n : Nat) : List Char := natDigitsAux (n + 1) n

/-- Python `str` of an integer: a minus sign followed by the decimal digits
of the absolute value when negative, the decimal digits otherwise. -/
def intStr (n : Int) : Str :=
  if n < 0 then '-' :: natDigits (-n).toNat else natDigits n.toNat

/-- `address(host, port)` from services.py: `host + ":" + str(port)`. -/
def address (host : Str) (port : Int) : Str :=
  host ++ ":".data ++ intStr port

/-! ## Parsing addresses back

The repository itself contains no address parser under src/ (addresses are
consumed by the external scheduler / object-store / worker binaries), so the
inverse direction is modelled from the spec. -/

/-- Numeric value of a digit character. -/
def digitVal (c : Char) : Nat := c.toNat - 48

/-- Whether a character is a decimal digit. -/
def isDigit (c : Char) : Bool := 48 ≤ c.toNat && c.toNat ≤ 57

/-- Value of a digit string, most significant digit first. -/
def digitsToNat (s : Str) : Nat :=
  s.foldl (fun acc c => 10 * acc + digitVal c) 0

/-- Modelled from the spec: parse a nonempty all-digit string as a natural
number (the port field of an address). -/
def strToNat (s : Str) : Option Nat :=
  if !s.isEmpty && s.all isDigit then some (digitsToNat s) else none

/-- Modelled from the spec: parse an optional leading minus sign followed by
decimal digits as an integer. -/
def strToInt (s : Str) : Option Int :=
  match s with
  | [] => none
  | c :: rest =>
    if c = '-' then (strToNat rest).map (fun n => -(n : Int))
    else (strToNat (c :: rest)).map (fun n => (n : Int))

/-- Split a string at its last colon, returning the parts before and after;
`none` when the string has no colon. -/
def splitLastColon : Str → Option (Str × Str)
  | [] => none
  | c :: rest =>
    match splitLastColon rest with
    | some (pre, post) => some (c :: pre, post)
    | none => if c = ':' then some ([], rest) else none

/-- Modelled from the spec: no parser exists under src/; per the spec the
address format is `"<host>:<port>"` with the port the decimal integer after
the final colon, so parsing splits at the last colon and reads the port. -/
def parseAddress (s : Str) : Option (Str × Int) :=
  match splitLastColon s with
  | none => none
  | some (h, p) =>
    match strToInt p with
    | none => none
    | some n => some (h, n)

/-! ## Port counters

services.py keeps three module-level counters; each `new_*_port` function
increments its counter and returns `base + counter`.  Each function below
maps the counter value before the call to the pair (counter value after the
call, returned port). -/

/-- `new_scheduler_port`: increment the scheduler counter, return
`10000 + counter`. -/
def new_scheduler_port (scheduler_port_counter : Int) : Int × Int :=
  let c := scheduler_port_counter + 1
  (c, 10000 + c)

/-- `new_worker_port`: increment the worker counter, return
`40000 + counter`. -/
def new_worker_port (worker_port_counter : Int) : Int × Int :=
  let c := worker_port_counter + 1
  (c, 40000 + c)

/-- `new_objstore_port`: increment the object-store counter, return
`20000 + counter`. -/
def new_objstore_port (objstore_port_counter : Int) : Int × Int :=
  let c := objstore_port_counter + 1
  (c, 20000 + c)

/-- Counter value after `k` allocations through `f`, starting from a fresh
counter (value 0, the module-load value in services.py). -/
def counterAfter (f : Int → Int × Int) : Nat → Int
  | 0 => 0
  | k + 1 => (f (counterAfter f k)).1

/-- The port returned by the `k`-th allocation (1-indexed) through `f` on a
fresh counter. -/
def kthPort (f : Int → Int × Int) (k : Nat) : Int :=
  (f (counterAfter f (k - 1))).2

/-! ## The orchestrator world

services.py distinguishes three launch commands by the argv handed to
`subprocess.Popen`: the scheduler binary with its bind address, the
object-store binary with the scheduler address and its bind address, and
`python` running the worker program with three `--*-address` flags.  The
constructor records the argv fields; `_services_path` is one fixed prefix
shared by the scheduler and objstore binaries, so it is left implicit. -/

/-- The argv shape handed to `subprocess.Popen` for one launched process. -/
inductive Cmd
  /-- `[_services_path/"scheduler", scheduler_address]` -/
  | scheduler (scheduler_address : Str)
  /-- `[_services_path/"objstore", scheduler_address, objstore_address]` -/
  | objstore (scheduler_address objstore_address : Str)
  /-- `["python", test_path, --scheduler-address, --objstore-address,
  --worker-address]`; the path field holds the Python value passed for
  `test_path`, which may be `None`. -/
  | worker (test_path : Option Str)
      (scheduler_address objstore_address worker_address : Str)
deriving DecidableEq

/-- The role of a launched process, read off from its argv. -/
inductive Role
  | scheduler
  | objstore
  | worker
deriving DecidableEq

/-- Role of a launch command. -/
def Cmd.role : Cmd → Role
  | .scheduler _ => .scheduler
  | .objstore _ _ => .objstore
  | .worker _ _ _ _ => .worker

/-- One invocation of the external `orchpy.connect` API: the three
addresses passed, and the driver worker object passed (by id), `none` for
the implicit-driver form `orchpy.connect(a, b, c)`.  The object-store
argument is an `Option` because the source can pass the unset
`objstore_address` parameter straight through. -/
structure ConnectCall where
  scheduler_address : Str
  objstore_address : Option Str
  worker_address : Str
  driver : Option Nat
deriving DecidableEq

/-- The module-level mutable state of services.py: the three port
counters, the process registry `all_processes` (ordered pairs of Popen
handle and address, the handle identified by its argv), the driver registry
`drivers` (driver `worker.Worker()` objects, identified by creation index
`next_worker_id`), and the log of `orchpy.connect` calls made. -/
structure World where
  scheduler_port_counter : Int
  objstore_port_counter : Int
  worker_port_counter : Int
  next_worker_id : Nat
  all_processes : List (Cmd × Str)
  drivers : List Nat
  connects : List ConnectCall
deriving DecidableEq

/-- The state right after the module is loaded: counters at zero, both
registries empty. -/
def World.init : World :=
  { scheduler_port_counter := 0
    objstore_port_counter := 0
    worker_port_counter := 0
    next_worker_id := 0
    all_processes := []
    drivers := []
    connects := [] }

/-- `IP_ADDRESS = "127.0.0.1"`. -/
def IP_ADDRESS : Str := "127.0.0.1".data

/-- Allocate a scheduler port out of the world state. -/
def allocSchedulerPort (w : World) : Int × World :=
  let (c, p) := new_scheduler_port w.scheduler_port_counter
  (p, { w with scheduler_port_counter := c })

/-- Allocate an object-store port out of the world state. -/
def allocObjstorePort (w : World) : Int × World :=
  let (c, p) := new_objstore_port w.objstore_port_counter
  (p, { w with objstore_port_counter := c })

/-- Allocate a worker port out of the world state. -/
def allocWorkerPort (w : World) : Int × World :=
  let (c, p) := new_worker_port w.worker_port_counter
  (p, { w with worker_port_counter := c })

/-- `start_scheduler`: spawn the scheduler binary and append
`(handle, scheduler_address)` to `all_processes`. -/
def start_scheduler (scheduler_address : Str) (w : World) : World :=
  { w with all_processes :=
      w.all_processes ++ [(Cmd.scheduler scheduler_address, scheduler_address)] }

/-- `start_objstore`: spawn the objstore binary and append
`(handle, objstore_address)` to `all_processes`. -/
def start_objstore (scheduler_address objstore_address : Str) (w : World) :
    World :=
  { w with all_processes :=
      w.all_processes ++
        [(Cmd.objstore scheduler_address objstore_address, objstore_address)] }

/-- `start_worker`: spawn `python test_path` with the three address flags
and append `(handle, worker_address)` to `all_processes`. -/
def start_worker (test_path : Option Str)
    (scheduler_address objstore_address worker_address : Str) (w : World) :
    World :=
  { w with all_processes :=
      w.all_processes ++
        [(Cmd.worker test_path scheduler_address objstore_address
            worker_address, worker_address)] }

/-- A call to the external `orchpy.connect`, recorded in the log. -/
def orchpy_connect (scheduler_address : Str) (objstore_address : Option Str)
    (worker_address : Str) (driver : Option Nat) (w : World) : World :=
  { w with connects :=
      w.connects ++
        [{ scheduler_address := scheduler_address
           objstore_address := objstore_address
           worker_address := worker_address
           driver := driver }] }

/-- Exceptions the orchestrator can raise. -/
inductive Err
  /-- The generic `Exception` raised by the configuration checks at the top
  of `start_cluster` (the spec calls it `ConfigError`). -/
  | configError
  /-- Python `IndexError`: from subscripting an empty list, or from
  `str.format` consuming more placeholder arguments than it was given. -/
  | indexError
  /-- Python `NameError`, from evaluating an unbound name. -/
  | nameError
deriving DecidableEq

/-! ## start_node and start_cluster -/

/-- `start_node(scheduler_address, node_ip_address, num_workers,
worker_path)`: allocate an object-store address on the node, launch the
object store, sleep; the worker loop that follows is
`for _ in range(num_workers_per_objstore)`, but the name
`num_workers_per_objstore` is bound neither in `start_node` (its own
parameter is `num_workers`) nor at module scope, so evaluating the range
raises `NameError` and nothing after the object-store launch runs. -/
def start_node (scheduler_address : Str) (node_ip_address : Str)
    (num_workers : Int) (worker_path : Option Str) (w : World) :
    Except Err Unit × World :=
  let (p, w) := allocObjstorePort w
  let objstore_address := address node_ip_address p
  let w := start_objstore scheduler_address objstore_address w
  -- time.sleep(0.2)
  let _ := num_workers
  let _ := worker_path
  (.error .nameError, w)

/-- State of the `start_cluster` object-store loop: the accumulating
`objstore_addresses` list, the current value of the `objstore_address`
variable (also the keyword parameter, so an `Option`), and the world. -/
structure ObjLoopState where
  objstore_addresses : List Str
  objstore_address : Option Str
  world : World

/-- One iteration of the object-store creation loop in `start_cluster`:
allocate an address, append it, launch the object store, then launch
`num_workers_per_objstore` workers against it. -/
def objstoreIteration (scheduler_address : Str)
    (num_workers_per_objstore : Int) (worker_path : Option Str)
    (st : ObjLoopState) : ObjLoopState :=
  let (p, w) := allocObjstorePort st.world
  let objstore_address := address IP_ADDRESS p
  let objstore_addresses := st.objstore_addresses ++ [objstore_address]
  let w := start_objstore scheduler_address objstore_address w
  -- time.sleep(0.2)
  let w := (List.range num_workers_per_objstore.toNat).foldl
    (fun w _ =>
      let (wp, w) := allocWorkerPort w
      start_worker worker_path scheduler_address objstore_address
        (address IP_ADDRESS wp) w)
    w
  -- time.sleep(0.3)
  { objstore_addresses := objstore_addresses
    objstore_address := some objstore_address
    world := w }

/-- One iteration of the driver-creation loop in `start_cluster` when
`return_drivers` is true: construct a fresh `worker.Worker()`, connect it to
`(scheduler_address, objstore_address, fresh worker address)` — note the
source passes the loop-leftover variable `objstore_address`, not
`objstore_addresses[i]` — then append it to `driver_workers` and to the
global `drivers`. -/
def driverIteration (scheduler_address : Str)
    (objstore_address : Option Str) (acc : List Nat × World) :
    List Nat × World :=
  let (driver_workers, w) := acc
  let driver_worker := w.next_worker_id
  let w := { w with next_worker_id := driver_worker + 1 }
  let (p, w) := allocWorkerPort w
  let w := orchpy_connect scheduler_address objstore_address
    (address IP_ADDRESS p) (some driver_worker) w
  let driver_workers := driver_workers ++ [driver_worker]
  let w := { w with drivers := w.drivers ++ [driver_worker] }
  (driver_workers, w)

/-- `start_cluster(scheduler_address, objstore_address, return_drivers,
num_objstores, num_workers_per_objstore, worker_path)`.  Returns
`some driver_workers` in the `return_drivers` branch and `none` otherwise
(the Python function falls off the end), or the exception raised. -/
def start_cluster (scheduler_address : Option Str)
    (objstore_address : Option Str) (return_drivers : Bool)
    (num_objstores : Int) (num_workers_per_objstore : Int)
    (worker_path : Option Str) (w : World) :
    Except Err (Option (List Nat)) × World :=
  if num_workers_per_objstore > 0 ∧ worker_path = none then
    (.error .configError, w)
  else if num_workers_per_objstore > 0 ∧ num_objstores < 1 then
    -- The message of this raise has two placeholders but `format` gets a
    -- single argument, so the exception that actually propagates is the
    -- IndexError raised while building the message, before the intended
    -- Exception is even constructed; still synchronous and pre-launch.
    (.error .indexError, w)
  else
    let (scheduler_address, w) :=
      match scheduler_address with
      | none =>
        let (p, w) := allocSchedulerPort w
        let a := address IP_ADDRESS p
        (a, start_scheduler a w)
      | some a => (a, w)
    -- time.sleep(0.1)
    let st := (List.range num_objstores.toNat).foldl
      (fun st _ =>
        objstoreIteration scheduler_address num_workers_per_objstore
          worker_path st)
      { objstore_addresses := []
        objstore_address := objstore_address
        world := w }
    if return_drivers then
      let (driver_workers, w) := (List.range num_objstores.toNat).foldl
        (fun acc _ =>
          driverIteration scheduler_address st.objstore_address acc)
        ([], st.world)
      -- time.sleep(0.5)
      (.ok (some driver_workers), w)
    else
      match st.objstore_addresses[0]? with
      | none => (.error .indexError, st.world)
      | some a0 =>
        let (p, w) := allocWorkerPort st.world
        let w := orchpy_connect scheduler_address (some a0)
          (address IP_ADDRESS p) none w
        -- time.sleep(0.5)
        (.ok none, w)

/-! ## The shutdown coordinator

`cleanup()` iterates the process registry; for teardown the relevant face
of a Popen handle is how it answers `poll()` before and after each signal,
so here a handle is a record of those answers. -/

/-- Teardown behaviour of one tracked OS process: whether `poll()` reports
an exit before any signal, after `kill()`, and (would report) after
`terminate()`. -/
structure Proc where
  exited0 : Bool
  diesOnKill : Bool
  diesOnTerminate : Bool
deriving DecidableEq

/-- `p.poll() is not None` as a function of which signals have been sent to
the process so far. -/
def poll (p : Proc) (killSent terminateSent : Bool) : Bool :=
  p.exited0 || (killSent && p.diesOnKill) ||
    (terminateSent && p.diesOnTerminate)

/-- The re-check after `terminate()` in the source reads
`if p.poll is not None:` — it tests the bound-method object `p.poll`
itself instead of calling it, and a bound method is never `None`, so the
test is true for every process. -/
def poll_attr_is_not_none (p : Proc) : Bool :=
  let _ := p
  true

/-- Signals `cleanup` can send to a process. -/
inductive Signal
  | kill
  | terminate
deriving DecidableEq

/-- How `cleanup` disposed of one registry entry (which log line it
printed last for that entry). -/
inductive Outcome
  /-- "Process at address ... has already terminated." -/
  | alreadyTerminated
  /-- "Successfully killed process at address ..." -/
  | killed
  /-- "Successfully terminated process at address ..." -/
  | terminateReported
  /-- "Termination attempt failed, giving up." -/
  | gaveUp
deriving DecidableEq

/-- The body of the `cleanup` loop for one `(p, address)` entry: the
signals sent to the process and the outcome logged. -/
def cleanup_record (p : Proc) : List Signal × Outcome :=
  if poll p false false then ([], .alreadyTerminated)
  else if poll p true false then ([.kill], .killed)
  else if poll_attr_is_not_none p then ([.kill, .terminate], .terminateReported)
  else ([.kill, .terminate], .gaveUp)

/-- The state `cleanup` reads and rewrites: the process registry (with each
handle given by its teardown behaviour) and the driver registry. -/
structure TeardownState where
  all_processes : List (Proc × Str)
  drivers : List Nat
deriving DecidableEq

/-- `cleanup()`: handle every registry entry in order, then set
`all_processes = []`; disconnect every registered driver, with one implicit
`orchpy.disconnect()` call when no driver is registered, then set
`drivers = []`.  Returns the new state, the per-entry log
`(address, signals sent, outcome)`, and the arguments of the
`orchpy.disconnect` calls made. -/
def cleanup (s : TeardownState) :
    TeardownState × List (Str × List Signal × Outcome) × List (Option Nat) :=
  let log := s.all_processes.map (fun pa => (pa.2, cleanup_record pa.1))
  let disconnects :=
    s.drivers.map some ++
      (if s.drivers.length = 0 then [(none : Option Nat)] else [])
  (⟨[], []⟩, log, disconnects)

/-! ## Lemmas about decimal digits and address parsing -/

/-- Digit characters of values below ten are decimal digits. -/
lemma isDigit_digitChar (d : Nat) (h : d < 10) : isDigit (digitChar d) = true := by
  interval_cases d <;> decide

/-- `digitVal` inverts `digitChar` on values below ten. -/
lemma digitVal_digitChar (d : Nat) (h : d < 10) : digitVal (digitChar d) = d := by
  interval_cases d <;> decide

/-- Every character produced with enough fuel is a decimal digit. -/
lemma mem_natDigitsAux :
    ∀ fuel n : Nat, n < fuel → ∀ c ∈ natDigitsAux fuel n, isDigit c = true := by
  intro fuel
  induction fuel with
  | zero => intro n h; omega
  | succ fuel ih =>
    intro n h c hc
    simp only [natDigitsAux] at hc
    split at hc
    · next h10 =>
      simp only [List.mem_singleton] at hc
      subst hc
      exact isDigit_digitChar n h10
    · next h10 =>
      rcases List.mem_append.1 hc with h1 | h2
      · exact ih (n / 10) (by omega) c h1
      · simp only [List.mem_singleton] at h2
        subst h2
        exact isDigit_digitChar (n % 10) (by omega)

/-- Every character of `natDigits n` is a decimal digit. -/
lemma mem_natDigits (n : Nat) : ∀ c ∈ natDigits n, isDigit c = true :=
  mem_natDigitsAux (n + 1) n (by omega)

/-- With enough fuel the digit string is nonempty. -/
lemma natDigitsAux_ne_nil (fuel n : Nat) (h : n < fuel) :
    natDigitsAux fuel n ≠ [] := by
  cases fuel with
  | zero => omega
  | succ fuel =>
    simp only [natDigitsAux]
    split <;> simp

/-- `natDigits` never produces the empty string. -/
lemma natDigits_ne_nil (n : Nat) : natDigits n ≠ [] :=
  natDigitsAux_ne_nil (n + 1) n (by omega)

/-- Appending one digit multiplies the value by ten and adds the digit. -/
lemma digitsToNat_append (xs : Str) (c : Char) :
    digitsToNat (xs ++ [c]) = 10 * digitsToNat xs + digitVal c := by
  simp [digitsToNat, List.foldl_append]

/-- With enough fuel, `digitsToNat` inverts `natDigitsAux`. -/
lemma digitsToNat_natDigitsAux :
    ∀ fuel n : Nat, n < fuel → digitsToNat (natDigitsAux fuel n) = n := by
  intro fuel
  induction fuel with
  | zero => intro n h; omega
  | succ fuel ih =>
    intro n h
    simp only [natDigitsAux]
    split
    · next h10 =>
      simp [digitsToNat, digitVal_digitChar n h10]
    · next h10 =>
      rw [digitsToNat_append, ih (n / 10) (by omega),
        digitVal_digitChar (n % 10) (by omega)]
      omega

/-- `digitsToNat` inverts `natDigits`. -/
lemma digitsToNat_natDigits (n : Nat) : digitsToNat (natDigits n) = n :=
  digitsToNat_natDigitsAux (n + 1) n (by omega)

/-- `strToNat` inverts `natDigits`. -/
lemma strToNat_natDigits (n : Nat) : strToNat (natDigits n) = some n := by
  have h1 : (natDigits n).isEmpty = false := by
    cases h : natDigits n with
    | nil => exact absurd h (natDigits_ne_nil n)
    | cons a l => rfl
  have h2 : (natDigits n).all isDigit = true :=
    List.all_eq_true.2 (mem_natDigits n)
  simp [strToNat, h1, h2, digitsToNat_natDigits]

/-- `strToInt` inverts `intStr`. -/
lemma strToInt_intStr (n : Int) : strToInt (intStr n) = some n := by
  by_cases hn : n < 0
  · rw [intStr, if_pos hn]
    simp [strToInt, strToNat_natDigits]
    omega
  · rw [intStr, if_neg hn]
    cases h : natDigits n.toNat with
    | nil => exact absurd h (natDigits_ne_nil _)
    | cons c rest =>
      have hc : isDigit c = true :=
        mem_natDigits _ c (h ▸ List.mem_cons_self c rest)
      have hcne : ¬(c = '-') := by
        intro he
        subst he
        exact absurd hc (by decide)
      rw [strToInt, if_neg hcne, ← h, strToNat_natDigits]
      simp
      omega

/-- No character of `intStr n` is a colon. -/
lemma mem_intStr_ne_colon (n : Int) : ∀ c ∈ intStr n, c ≠ ':' := by
  intro c hc he
  subst he
  unfold intStr at hc
  split at hc
  · rcases List.mem_cons.1 hc with h | h
    · exact absurd h (by decide)
    · exact absurd (mem_natDigits _ _ h) (by decide)
  · exact absurd (mem_natDigits _ _ hc) (by decide)

/-- A colon-free string has no last colon. -/
lemma splitLastColon_no_colon (ys : Str) (h : ∀ c ∈ ys, c ≠ ':') :
    splitLastColon ys = none := by
  induction ys with
  | nil => rfl
  | cons c rest ih =>
    simp only [splitLastColon,
      ih (fun c hc => h c (List.mem_cons_of_mem _ hc))]
    exact if_neg (h c (List.mem_cons_self c rest))

/-- Splitting at the last colon undoes appending a colon and a colon-free
suffix. -/
lemma splitLastColon_append (xs ys : Str) (h : ∀ c ∈ ys, c ≠ ':') :
    splitLastColon (xs ++ ':' :: ys) = some (xs, ys) := by
  induction xs with
  | nil => simp [splitLastColon, splitLastColon_no_colon ys h]
  | cons x xs ih => simp [splitLastColon, ih]

/-! ## Counter lemmas -/

/-- After `k` allocations through a counter of the services.py shape, the
counter value is `k`. -/
lemma counterAfter_eq (f : Int → Int × Int) (base : Int)
    (hf : ∀ c, f c = (c + 1, base + (c + 1))) :
    ∀ k : Nat, counterAfter f k = k := by
  intro k
  induction k with
  | zero => rfl
  | succ k ih => simp [counterAfter, hf, ih]

/-- The `k`-th allocation (1-indexed) through a counter of the services.py
shape with base `base` returns `base + k`. -/
lemma kthPort_eq (f : Int → Int × Int) (base : Int)
    (hf : ∀ c, f c = (c + 1, base + (c + 1))) (k : Nat) (hk : 1 ≤ k) :
    kthPort f k = base + k := by
  rw [kthPort, counterAfter_eq f base hf, hf]
  have : ((k - 1 : Nat) : Int) = (k : Int) - 1 := by omega
  rw [this]
  ring

/-- `new_scheduler_port` has the counter shape with base 10000. -/
lemma new_scheduler_port_shape (c : Int) :
    new_scheduler_port c = (c + 1, 10000 + (c + 1)) := rfl

/-- `new_objstore_port` has the counter shape with base 20000. -/
lemma new_objstore_port_shape (c : Int) :
    new_objstore_port c = (c + 1, 20000 + (c + 1)) := rfl

/-- `new_worker_port` has the counter shape with base 40000. -/
lemma new_worker_port_shape (c : Int) :
    new_worker_port c = (c + 1, 40000 + (c + 1)) := rfl

/-! ## Claims -/

/-- C9: formatting a `(host, port)` pair with `address` and parsing the
resulting string back (at the last colon, per the spec address format)
returns the original host and port, for every host string and integer
port. -/
theorem claim9_address_roundtrip (host : Str) (port : Int) :
    parseAddress (address host port) = some (host, port) := by
  have haddr : address host port = host ++ ':' :: intStr port := by
    simp [address]
  rw [haddr]
  simp [parseAddress,
    splitLastColon_append host (intStr port) (mem_intStr_ne_colon port),
    strToInt_intStr]

/-- C7: on each of the three fresh per-role counters, the `k`-th allocated
port (1-indexed) is the role base plus `k`, and the ports of any two
allocations are strictly increasing in allocation order (hence never
repeat). -/
theorem claim7_ports_strictly_increasing :
    (∀ k : Nat, 1 ≤ k →
      kthPort new_scheduler_port k = 10000 + k ∧
      kthPort new_objstore_port k = 20000 + k ∧
      kthPort new_worker_port k = 40000 + k) ∧
    (∀ i j : Nat, 1 ≤ i → i < j →
      kthPort new_scheduler_port i < kthPort new_scheduler_port j ∧
      kthPort new_objstore_port i < kthPort new_objstore_port j ∧
      kthPort new_worker_port i < kthPort new_worker_port j) := by
  have hs := kthPort_eq new_scheduler_port 10000 new_scheduler_port_shape
  have ho := kthPort_eq new_objstore_port 20000 new_objstore_port_shape
  have hw := kthPort_eq new_worker_port 40000 new_worker_port_shape
  refine ⟨fun k hk => ⟨hs k hk, ho k hk, hw k hk⟩, fun i j hi hij => ?_⟩
  have hj : 1 ≤ j := by omega
  refine ⟨?_, ?_, ?_⟩
  · rw [hs i hi, hs j hj]; omega
  · rw [ho i hi, ho j hj]; omega
  · rw [hw i hi, hw j hj]; omega

/-- Witness for C7 at concrete allocation indices. -/
theorem claim7_witness :
    kthPort new_scheduler_port 3 = 10003 ∧
    kthPort new_objstore_port 1 < kthPort new_objstore_port 2 := by
  refine ⟨?_, ?_⟩
  · have h := (claim7_ports_strictly_increasing.1 3 (by norm_num)).1
    rw [h]; norm_num
  · exact (claim7_ports_strictly_increasing.2 1 2 (by norm_num)
      (by norm_num)).2.1

/-- C5: whatever the process registry and the driver registry hold,
`cleanup` leaves both registries empty. -/
theorem claim5_cleanup_clears_registries (s : TeardownState) :
    (cleanup s).1.all_processes = [] ∧ (cleanup s).1.drivers = [] :=
  ⟨rfl, rfl⟩

/-- C8: a registry entry whose process has already exited before `cleanup`
examines it is logged as already terminated with no kill or terminate
signal sent to it. -/
theorem claim8_already_exited_skipped (s : TeardownState) (p : Proc)
    (a : Str) (hmem : (p, a) ∈ s.all_processes) (h : p.exited0 = true) :
    cleanup_record p = ([], Outcome.alreadyTerminated) ∧
    (a, ([], Outcome.alreadyTerminated)) ∈ (cleanup s).2.1 := by
  have hrec : cleanup_record p = ([], Outcome.alreadyTerminated) := by
    simp [cleanup_record, poll, h]
  refine ⟨hrec, ?_⟩
  have hmap := List.mem_map_of_mem
    (fun pa : Proc × Str => (pa.2, cleanup_record pa.1)) hmem
  simpa [cleanup, hrec] using hmap

/-- Witness for C8: one registry entry whose process exited on its own. -/
theorem claim8_witness :
    cleanup_record ⟨true, false, false⟩ = ([], Outcome.alreadyTerminated) ∧
    (("x".data : Str), ([], Outcome.alreadyTerminated)) ∈
      (cleanup ⟨[(⟨true, false, false⟩, "x".data)], []⟩).2.1 :=
  claim8_already_exited_skipped ⟨[(⟨true, false, false⟩, "x".data)], []⟩
    ⟨true, false, false⟩ ("x".data) (by decide) rfl

/-- C2 fails on the code: for a process that survives both the kill and the
terminate signal, the re-check after terminate in the source reads
`p.poll is not None` (the bound method, never `None`), so `cleanup` logs
"Successfully terminated" even though a further poll would still report the
process alive, and no input ever reaches the "giving up" log line. -/
theorem claim2_terminate_recheck_always_reports_success :
    cleanup_record ⟨false, false, false⟩ =
      ([Signal.kill, Signal.terminate], Outcome.terminateReported) ∧
    poll ⟨false, false, false⟩ true true = false ∧
    ∀ p : Proc, (cleanup_record p).2 = Outcome.alreadyTerminated ∨
      (cleanup_record p).2 = Outcome.killed ∨
      (cleanup_record p).2 = Outcome.terminateReported := by
  refine ⟨by decide, by decide, ?_⟩
  rintro ⟨e, k, t⟩
  cases e <;> cases k <;> cases t <;> decide

/-- C4 counterexample: with `num_workers_per_objstore = 2`,
`num_objstores = 0` and a worker path supplied, the exception
`start_cluster` propagates is not the configuration `Exception` the claim
calls `ConfigError` but the IndexError raised while the second guard
formats its two-placeholder message with a single argument
(services.py line 108); the world is still returned unchanged. -/
theorem claim4_counterexample :
    start_cluster none none false 0 2 (some ("worker.py".data))
        World.init =
      (.error .indexError, World.init) ∧
    (Err.indexError == Err.configError) = false :=
  ⟨rfl, rfl⟩

/-- C4 as amended: with `num_workers_per_objstore > 0` and no worker path,
`start_cluster` raises its configuration exception before launching
anything; with `num_workers_per_objstore > 0`, a worker path set and
`num_objstores < 1`, it still raises before launching anything, but the
exception is the IndexError from formatting the guard's message.  In both
cases the world is returned completely unchanged, so the process registry
gains no record. -/
theorem claim4_config_validation (sa oa : Option Str) (rd : Bool)
    (no nw : Int) (wp : Option Str) (w : World) (hnw : 0 < nw)
    (h : wp = none ∨ no < 1) :
    start_cluster sa oa rd no nw wp w =
      (.error (if wp = none then Err.configError else Err.indexError),
       w) := by
  rcases h with h | h
  · subst h
    rw [start_cluster.eq_def, if_pos ⟨hnw, rfl⟩]
    simp
  · by_cases hwp : wp = none
    · subst hwp
      rw [start_cluster.eq_def, if_pos ⟨hnw, rfl⟩]
      simp
    · rw [start_cluster.eq_def, if_neg (fun hc => hwp hc.2),
        if_pos ⟨hnw, h⟩, if_neg hwp]

/-- Witness for C4 exercising both guards at concrete invalid
configurations. -/
theorem claim4_witness :
    start_cluster none none false 1 2 none World.init =
      (.error .configError, World.init) ∧
    start_cluster none none false 0 2 (some ("worker.py".data))
        World.init =
      (.error .indexError, World.init) := by
  constructor
  · have h := claim4_config_validation none none false 1 2 none World.init
      (by norm_num) (Or.inl rfl)
    simpa using h
  · have h := claim4_config_validation none none false 0 2
      (some ("worker.py".data)) World.init (by norm_num)
      (Or.inr (by norm_num))
    simpa using h

/-- C6: `start_cluster` with no scheduler address, three object stores and
zero workers per store appends exactly four records to the process
registry: one scheduler record followed by three object-store records, and
no worker record — whatever the prior world state and the remaining
arguments. -/
theorem claim6_registry_counts (oa : Option Str) (rd : Bool)
    (wp : Option Str) (w : World) :
    (start_cluster none oa rd 3 0 wp w).2.all_processes.map
        (fun pr => pr.1.role) =
      w.all_processes.map (fun pr => pr.1.role) ++
        [Role.scheduler, Role.objstore, Role.objstore, Role.objstore] := by
  cases rd <;>
    simp [start_cluster, objstoreIteration, driverIteration,
      allocSchedulerPort, allocObjstorePort, allocWorkerPort,
      new_scheduler_port, new_objstore_port, new_worker_port,
      start_scheduler, start_objstore, start_worker, orchpy_connect,
      Cmd.role, List.range_succ]

/-- C10: `start_cluster` with `return_drivers` false, zero object stores
and zero workers passes validation, launches and registers the scheduler,
and then fails with an indexing error when the implicit driver-connect step
subscripts the empty `objstore_addresses` list. -/
theorem claim10_empty_cluster_index_error (w : World) :
    (start_cluster none none false 0 0 none w).1 = .error .indexError ∧
    (start_cluster none none false 0 0 none w).2.all_processes =
      w.all_processes ++
        [(Cmd.scheduler
            (address IP_ADDRESS (10000 + (w.scheduler_port_counter + 1))),
          address IP_ADDRESS (10000 + (w.scheduler_port_counter + 1)))] := by
  constructor <;>
    simp [start_cluster, allocSchedulerPort, new_scheduler_port,
      start_scheduler]

/-- C1 fails on the code: `start_cluster` with `return_drivers` true and
two object stores does return two driver handles, but the connect call in
the driver loop passes the loop-leftover variable `objstore_address` (the
last created store) instead of `objstore_addresses[i]`, so both drivers are
connected to the second store address `127.0.0.1:20002` while the stores
created are at the distinct addresses `127.0.0.1:20001` and
`127.0.0.1:20002`. -/
theorem claim1_drivers_all_connect_to_last_objstore :
    (start_cluster none none true 2 0 none World.init).1 =
      .ok (some [0, 1]) ∧
    (start_cluster none none true 2 0 none World.init).2.all_processes.map
        Prod.snd =
      [address IP_ADDRESS 10001, address IP_ADDRESS 20001,
        address IP_ADDRESS 20002] ∧
    (start_cluster none none true 2 0 none World.init).2.connects.map
        ConnectCall.objstore_address =
      [some (address IP_ADDRESS 20002), some (address IP_ADDRESS 20002)] ∧
    (address IP_ADDRESS 20001 == address IP_ADDRESS 20002) = false := by
  refine ⟨rfl, rfl, rfl, rfl⟩

/-- C3 fails on the code: `start_node` launches and registers one object
store, but the worker loop bound names `num_workers_per_objstore`, which is
unbound in its scope (the parameter is `num_workers`), so the call raises
`NameError` with no worker launched and no driver connected. -/
theorem claim3_start_node_raises_nameerror :
    start_node ("127.0.0.1:10001".data) ("127.0.0.1".data) 2
        (some ("worker.py".data)) World.init =
      (.error .nameError,
       { scheduler_port_counter := 0
         objstore_port_counter := 1
         worker_port_counter := 0
         next_worker_id := 0
         all_processes := [(Cmd.objstore ("127.0.0.1:10001".data)
             ("127.0.0.1:20001".data), "127.0.0.1:20001".data)]
         drivers := []
         connects := [] }) := by
  rfl
